import Mathlib

set_option autoImplicit false

/-
Shallow embedding of the core of the clip-toolkit repository:
packages/validator-core/src/clip-validator.ts and
packages/validator-core/src/schema-manager.ts.

JSON documents are modelled by the inductive type `Json` (numbers as
integers; JSON has no NaN/undefined, and no claim depends on float
behaviour).  JavaScript-specific operations used by the source
(truthiness tests, `typeof`, property access, `.length`, template-string
coercion, `JSON.stringify`) are modelled by explicit functions below,
each following the JavaScript semantics of the construct it names.
-/

namespace ClipToolkit

inductive Json where
  | null : Json
  | bool (b : Bool) : Json
  | num (n : Int) : Json
  | str (s : String) : Json
  | arr (elems : List Json) : Json
  | obj (fields : List (String × Json)) : Json
deriving Repr

/-- First-match association-list lookup: JavaScript object property access
for objects modelled as key/value lists (keys are unique in parsed JSON,
so first-match agrees with JS semantics). -/
def assocLookup (k : String) : List (String × Json) → Option Json
  | [] => none
  | (k', v) :: rest => if k' = k then some v else assocLookup k rest

/-- `doc.k` in JavaScript: a property read. On non-objects it yields
`undefined` (`none`); arrays have no named CLIP properties. -/
def getField : Json → String → Option Json
  | Json.obj fs, k => assocLookup k fs
  | _, _ => none

/-- JavaScript truthiness of a defined value: `false`, `0`, `""` and
`null` are falsy; every object and array is truthy. -/
def truthyV : Json → Bool
  | Json.null => false
  | Json.bool b => b
  | Json.num n => if n = 0 then false else true
  | Json.str s => if s = "" then false else true
  | Json.arr _ => true
  | Json.obj _ => true

/-- JavaScript truthiness where `none` stands for `undefined`. -/
def truthy : Option Json → Bool
  | none => false
  | some v => truthyV v

/-- JavaScript `.length` as used by the validator: defined for strings
and arrays; for objects it reads a numeric `length` property (as JS
would); `undefined` otherwise. -/
def lenNum : Json → Option Int
  | Json.str s => some (s.length : Int)
  | Json.arr xs => some (xs.length : Int)
  | Json.obj fs =>
    match assocLookup "length" fs with
    | some (Json.num n) => some n
    | _ => none
  | _ => none

/-- `x.length > 0` on a possibly-undefined value; `undefined > 0` is
false in JS (NaN comparison). -/
def jsLenGtZero : Option Json → Bool
  | none => false
  | some v =>
    match lenNum v with
    | some n => decide (0 < n)
    | none => false

/-- `x.length < bound`; false when `.length` is undefined. -/
def jsLenLt (o : Option Json) (bound : Int) : Bool :=
  match o with
  | none => false
  | some v =>
    match lenNum v with
    | some n => decide (n < bound)
    | none => false

/-- `x.length === 0`; strict equality, so false when `.length` is
undefined. -/
def jsLenEqZero (o : Option Json) : Bool :=
  match o with
  | none => false
  | some v =>
    match lenNum v with
    | some n => decide (n = 0)
    | none => false

/-- The guard `!clipObject || typeof clipObject !== 'object'` of the
source is false exactly for non-null JS objects; note `typeof` of an
array is `'object'` in JavaScript, so arrays pass the guard. -/
def jsObjectLike : Json → Bool
  | Json.obj _ => true
  | Json.arr _ => true
  | _ => false

/-- JavaScript `typeof` of a possibly-undefined value (`typeof null`
is `'object'`). -/
def jsTypeof : Option Json → String
  | none => "undefined"
  | some Json.null => "object"
  | some (Json.bool _) => "boolean"
  | some (Json.num _) => "number"
  | some (Json.str _) => "string"
  | some (Json.arr _) => "object"
  | some (Json.obj _) => "object"

mutual

/-- JavaScript `String(v)` / template-string coercion: strings pass
through, arrays join their elements with commas (`null` elements become
the empty string), plain objects print as `[object Object]`. -/
def jsToString : Json → String
  | Json.null => "null"
  | Json.bool true => "true"
  | Json.bool false => "false"
  | Json.num n => toString n
  | Json.str s => s
  | Json.arr xs => jsArrJoin "," xs
  | Json.obj _ => "[object Object]"

/-- JavaScript `Array.prototype.join(sep)`: elements are coerced with
`jsToString`, except `null`, which joins as the empty string. -/
def jsArrJoin (sep : String) : List Json → String
  | [] => ""
  | [Json.null] => ""
  | [x] => jsToString x
  | Json.null :: rest => sep ++ jsArrJoin sep rest
  | x :: rest => jsToString x ++ sep ++ jsArrJoin sep rest

end

/-- One lowercase hex digit. -/
def hexDigit (n : Nat) : String :=
  if n = 10 then "a"
  else if n = 11 then "b"
  else if n = 12 then "c"
  else if n = 13 then "d"
  else if n = 14 then "e"
  else if n = 15 then "f"
  else toString n

/-- JSON string escaping of a single character, as `JSON.stringify`
performs it. -/
def escJsonChar (c : Char) : String :=
  if c = '"' then "\\\""
  else if c = '\\' then "\\\\"
  else if c = '\n' then "\\n"
  else if c = '\r' then "\\r"
  else if c = '\t' then "\\t"
  else if c = '\x08' then "\\b"
  else if c = '\x0c' then "\\f"
  else if c.toNat < 32 then "\\u00" ++ hexDigit (c.toNat / 16) ++ hexDigit (c.toNat % 16)
  else String.singleton c

/-- A JSON string literal with its quotes. -/
def jsonQuote (s : String) : String :=
  "\"" ++ String.join (s.data.map escJsonChar) ++ "\""

mutual

/-- `JSON.stringify(v)` (compact form, insertion key order). -/
def stringify : Json → String
  | Json.null => "null"
  | Json.bool true => "true"
  | Json.bool false => "false"
  | Json.num n => toString n
  | Json.str s => jsonQuote s
  | Json.arr xs => "[" ++ stringifyElems xs ++ "]"
  | Json.obj fs => "\x7b" ++ stringifyFields fs ++ "\x7d"

def stringifyElems : List Json → String
  | [] => ""
  | [x] => stringify x
  | x :: rest => stringify x ++ "," ++ stringifyElems rest

def stringifyFields : List (String × Json) → String
  | [] => ""
  | [(k, v)] => jsonQuote k ++ ":" ++ stringify v
  | (k, v) :: rest => jsonQuote k ++ ":" ++ stringify v ++ "," ++ stringifyFields rest

end

/-- clip-validator.ts, `CLIPStats`. `estimatedSize` is in bytes;
`lastUpdated` carries the raw property value (the TS annotation says
`string?` but the source assigns `clipObject.lastUpdated` unchecked). -/
structure CLIPStats where
  type : String
  hasLocation : Bool
  featureCount : Nat
  actionCount : Nat
  serviceCount : Nat
  hasPersona : Bool
  estimatedSize : Nat
  lastUpdated : Option Json
  completeness : Nat
deriving Repr

/-- The record returned by `generateStats` for null / non-object input
(clip-validator.ts lines 207-218). -/
def zeroStats : CLIPStats :=
  { type := "unknown", hasLocation := false, featureCount := 0, actionCount := 0
    serviceCount := 0, hasPersona := false, estimatedSize := 0
    lastUpdated := none, completeness := 0 }

/-- `clipObject.location` is truthy (clip-validator.ts line 237). -/
def locationPresent (doc : Json) : Bool := truthy (getField doc "location")

/-- `clipObject.features && clipObject.features.length > 0` (line 238). -/
def featuresNonEmpty (doc : Json) : Bool :=
  truthy (getField doc "features") && jsLenGtZero (getField doc "features")

/-- `clipObject.actions && clipObject.actions.length > 0` (line 239). -/
def actionsNonEmpty (doc : Json) : Bool :=
  truthy (getField doc "actions") && jsLenGtZero (getField doc "actions")

/-- `clipObject.persona` is truthy (line 240). -/
def personaPresent (doc : Json) : Bool := truthy (getField doc "persona")

/-- `clipObject.services && clipObject.services.length > 0` (line 241). -/
def servicesNonEmpty (doc : Json) : Bool :=
  truthy (getField doc "services") && jsLenGtZero (getField doc "services")

/-- `Array.isArray(x) ? x.length : 0` (clip-validator.ts lines 246-248). -/
def arrayCount (o : Option Json) : Nat :=
  match o with
  | some (Json.arr xs) => xs.length
  | _ => 0

/-- `clipObject.type || 'unknown'` assigned to the string-typed stats
field: a truthy value is kept (string-coerced), anything falsy becomes
`"unknown"`. -/
def statsType (doc : Json) : String :=
  match getField doc "type" with
  | some v => if truthyV v then jsToString v else "unknown"
  | none => "unknown"

/-- `CLIPValidator.generateStats` (clip-validator.ts lines 206-254).
The completeness accumulation mirrors the source's sequence of `+=`
steps with the weights 40/15/15/10/10/10; `Math.round` on the integer
sum is the identity.  `estimatedSize` models `new Blob([jsonString]).size`,
the UTF-8 byte length of the serialized document. -/
def generateStats (doc : Json) : CLIPStats :=
  if jsObjectLike doc then
    let estimatedSize := (stringify doc).utf8ByteSize
    let completeness := 40
    let completeness := completeness + (if locationPresent doc then 15 else 0)
    let completeness := completeness + (if featuresNonEmpty doc then 15 else 0)
    let completeness := completeness + (if actionsNonEmpty doc then 10 else 0)
    let completeness := completeness + (if personaPresent doc then 10 else 0)
    let completeness := completeness + (if servicesNonEmpty doc then 10 else 0)
    { type := statsType doc
      hasLocation := truthy (getField doc "location")
      featureCount := arrayCount (getField doc "features")
      actionCount := arrayCount (getField doc "actions")
      serviceCount := arrayCount (getField doc "services")
      hasPersona := truthy (getField doc "persona")
      estimatedSize := estimatedSize
      lastUpdated := getField doc "lastUpdated"
      completeness := completeness }
  else zeroStats

/-- Milliseconds per day, the divisor in the staleness computation. -/
def msPerDay : Int := 86400000

/-- The staleness warning text with its day count
(clip-validator.ts line 176). -/
def staleWarningDays (days : Int) : String :=
  "CLIP object hasn\x27t been updated in " ++ toString days ++ " days"

def shortDescriptionWarning : String :=
  "Description is very short - consider adding more detail"

def venueLocationWarning : String :=
  "Venue objects typically include location information"

def featuresWarning : String :=
  "Consider adding features to describe capabilities or inventory"

def actionsWarning : String :=
  "Consider adding actions to enable user interactions"

/-- `clipObject.type === 'Venue'`: strict equality against the string. -/
def typeIsVenue (doc : Json) : Bool :=
  match getField doc "type" with
  | some (Json.str s) => decide (s = "Venue")
  | _ => false

/-- `CLIPValidator.generateWarnings` (clip-validator.ts lines 163-201).
`now` models `Date.now()` and `jsDate` models `new Date(v).getTime()`,
with `none` for an invalid date (NaN), in which case the `> 30` day
comparison is false.  The float comparison `ms / 86400000 > 30` is
modelled exactly as `ms > 30 * 86400000`, and `Math.floor` of the day
count as integer floor division.  The sequence of `warnings.push`
calls becomes a concatenation of zero-or-one element lists. -/
def generateWarnings (now : Int) (jsDate : Json → Option Int) (doc : Json) : List String :=
  if jsObjectLike doc then
    (match getField doc "lastUpdated" with
     | some v =>
       if truthyV v then
         match jsDate v with
         | some t =>
           if 30 * msPerDay < now - t then [staleWarningDays (Int.fdiv (now - t) msPerDay)]
           else []
         | none => []
       else []
     | none => [])
    ++ (if truthy (getField doc "description") && jsLenLt (getField doc "description") 10 then
          [shortDescriptionWarning]
        else [])
    ++ (if typeIsVenue doc && !truthy (getField doc "location") then
          [venueLocationWarning]
        else [])
    ++ (if !truthy (getField doc "features") || jsLenEqZero (getField doc "features") then
          [featuresWarning]
        else [])
    ++ (if !truthy (getField doc "actions") || jsLenEqZero (getField doc "actions") then
          [actionsWarning]
        else [])
  else []

/-- Diagnostic severity (clip-validator.ts `FormattedError.severity`). -/
inductive Severity where
  | error
  | warning
deriving Repr, DecidableEq

/-- clip-validator.ts, `FormattedError`: one formatted diagnostic. -/
structure FormattedError where
  field : String
  message : String
  value : Option Json
  suggestion : Option String
  severity : Severity
deriving Repr

/-- The optional members of an Ajv `ErrorObject.params` that the
validator's keyword switch reads (`missingProperty`, `type`,
`allowedValues`, `format`, `allowedValue`, `limit`). -/
structure ErrorParams where
  missingProperty : Option String := none
  type : Option String := none
  allowedValues : Option (List Json) := none
  format : Option String := none
  allowedValue : Option Json := none
  limit : Option Int := none
deriving Repr

/-- The fields of an Ajv v8 `ErrorObject` that `formatErrors` reads.
`message` and `data` may be absent (`undefined`). -/
structure ErrorObject where
  instancePath : String
  schemaPath : String
  keyword : String
  params : ErrorParams
  message : Option String
  data : Option Json
deriving Repr

/-- Interpolating a possibly-undefined string into a JS template:
`undefined` prints as the text `"undefined"`. -/
def optStr (o : Option String) : String := o.getD "undefined"

/-- Interpolating a possibly-undefined JSON value into a JS template. -/
def jsTemplateOpt (o : Option Json) : String :=
  match o with
  | none => "undefined"
  | some v => jsToString v

/-- Interpolating a possibly-undefined number into a JS template. -/
def optLimitStr (o : Option Int) : String :=
  match o with
  | none => "undefined"
  | some n => toString n

/-- `allowedValues?.join(sep)` interpolated into a template:
`undefined` when params are absent, otherwise a JS array join. -/
def joinAllowed (o : Option (List Json)) (sep : String) : String :=
  match o with
  | none => "undefined"
  | some l => jsArrJoin sep l

/-- `CLIPValidator.getRequiredFieldSuggestion`
(clip-validator.ts lines 259-270). -/
def getRequiredFieldSuggestion (field : String) : String :=
  if field = "@context" then "Add \"@context\": \"https://clipprotocol.org/v1\""
  else if field = "type" then "Add \"type\": \"Venue\", \"Device\", or \"SoftwareApp\""
  else if field = "id" then "Add a unique identifier like \"clip:us:ny:business:my-business\""
  else if field = "name" then "Add a human-readable name for this entity"
  else if field = "description" then "Add a brief description (max 500 characters)"
  else if field = "lastUpdated" then "Add the current timestamp in ISO 8601 format"
  else "Add the missing " ++ field ++ " field"

/-- `CLIPValidator.getTypeSuggestion` (clip-validator.ts lines 275-288). -/
def getTypeSuggestion (expectedType : String) (actualValue : Option Json) : String :=
  if expectedType = "string" then
    "Convert " ++ jsTypeof actualValue ++ " to string by wrapping in quotes"
  else if expectedType = "number" then
    "Convert to number (remove quotes if it\x27s a string number)"
  else if expectedType = "array" then
    "Convert to array format: [" ++ jsTemplateOpt actualValue ++ "]"
  else if expectedType = "object" then
    "Convert to object format: \x7b\x7d"
  else "Convert to " ++ expectedType

/-- `CLIPValidator.getFormatSuggestion` (clip-validator.ts lines 293-301). -/
def getFormatSuggestion (format : String) : String :=
  if format = "date-time" then "Use ISO 8601 format: \"2023-12-01T10:30:00Z\""
  else if format = "uri" then "Use a valid URI format: \"https://example.com\""
  else if format = "email" then "Use valid email format: \"user@example.com\""
  else "Use valid " ++ format ++ " format"

/-- The regex `/^\//` replacement: strip one leading slash. -/
def stripLeadingSlash : List Char → List Char
  | '/' :: rest => rest
  | cs => cs

/-- The regex `/\//g` replacement: every slash becomes a dot. -/
def slashToDot (cs : List Char) : List Char :=
  cs.map (fun c => if c = '/' then '.' else c)

/-- The regex `/\[(\d+)\]/g` replacement with template `[$1]`: a
left-to-right scan that rewrites every match `[digits]` to
`[` ++ digits ++ `]` (i.e. to itself) and leaves other characters
alone.  Modelled faithfully as the scan; `replaceArrIdx_id` below
proves it is the identity. -/
def replaceArrIdx : List Char → List Char
  | [] => []
  | c :: rest =>
    if c = '[' then
      match hdw : rest.dropWhile Char.isDigit with
      | ']' :: rest' =>
        if rest.takeWhile Char.isDigit = [] then
          c :: replaceArrIdx rest
        else
          '[' :: (rest.takeWhile Char.isDigit ++ ']' :: replaceArrIdx rest')
      | _ => c :: replaceArrIdx rest
    else
      c :: replaceArrIdx rest
termination_by cs => cs.length
decreasing_by
  all_goals simp only [List.length_cons]
  all_goals try omega
  have hle := List.Sublist.length_le (List.dropWhile_sublist (l := rest) (p := Char.isDigit))
  rw [hdw] at hle
  simp only [List.length_cons] at hle
  omega

/-- `CLIPValidator.cleanFieldPath` (clip-validator.ts lines 306-312):
strip one leading slash, turn remaining slashes into dots, rewrite
array indices `[n]` to themselves, and default the empty result to
`"root"` (the trailing `|| 'root'`). -/
def cleanFieldPath (p : String) : String :=
  let cs := replaceArrIdx (slashToDot (stripLeadingSlash p.data))
  if cs = [] then "root" else String.mk cs

/-- `error.instancePath || error.schemaPath || 'root'`
(clip-validator.ts line 103): JS `||` on strings treats the empty
string as falsy. -/
def rawFieldPath (e : ErrorObject) : String :=
  if e.instancePath ≠ "" then e.instancePath
  else if e.schemaPath ≠ "" then e.schemaPath
  else "root"

/-- The body of the `errors.map` in `CLIPValidator.formatErrors`
(clip-validator.ts lines 102-157): the keyword switch rewrites the
message and picks a suggestion; every diagnostic is emitted with
severity `error`. -/
def formatOneError (e : ErrorObject) : FormattedError :=
  let defaultMsg :=
    match e.message with
    | some m => if m = "" then "Validation error" else m
    | none => "Validation error"
  let ms : String × Option String :=
    if e.keyword = "required" then
      ("Missing required field: " ++ optStr e.params.missingProperty,
       some (getRequiredFieldSuggestion (optStr e.params.missingProperty)))
    else if e.keyword = "type" then
      ("Expected " ++ optStr e.params.type ++ ", got " ++ jsTypeof e.data,
       some (getTypeSuggestion (optStr e.params.type) e.data))
    else if e.keyword = "enum" then
      ("Value must be one of: " ++ joinAllowed e.params.allowedValues ", ",
       some ("Use one of the allowed values: " ++ joinAllowed e.params.allowedValues ", "))
    else if e.keyword = "format" then
      ("Invalid " ++ optStr e.params.format ++ " format",
       some (getFormatSuggestion (optStr e.params.format)))
    else if e.keyword = "const" then
      ("Must be exactly: " ++ jsTemplateOpt e.params.allowedValue,
       some ("Set the value to: " ++ jsTemplateOpt e.params.allowedValue))
    else if e.keyword = "minLength" then
      ("Must be at least " ++ optLimitStr e.params.limit ++ " characters long", none)
    else if e.keyword = "maxLength" then
      ("Must be at most " ++ optLimitStr e.params.limit ++ " characters long", none)
    else (defaultMsg, none)
  { field := cleanFieldPath (rawFieldPath e)
    message := ms.1
    value := e.data
    suggestion := ms.2
    severity := Severity.error }

/-- `CLIPValidator.formatErrors` (clip-validator.ts lines 101-158). -/
def formatErrors (errors : List ErrorObject) : List FormattedError :=
  errors.map formatOneError

/-- The outcome of running the compiled Ajv validate function on a
document: the boolean it returns and the `errors` array it leaves
(`this.validateFunction.errors || []`).  Ajv's contract couples the
two: the boolean is true exactly when the error list is empty; that
contract is taken as a hypothesis where a theorem needs it. -/
structure AjvOutcome where
  valid : Bool
  errors : List ErrorObject

/-- clip-validator.ts, `ValidationResult`. -/
structure ValidationResult where
  valid : Bool
  errors : List FormattedError
  stats : CLIPStats
  warnings : List String

/-- `CLIPValidator.validate` (clip-validator.ts lines 69-89), with the
external Ajv run abstracted as the `raw` outcome and the ambient clock
and date parser passed explicitly. -/
def validate (raw : AjvOutcome) (now : Int) (jsDate : Json → Option Int) (doc : Json) :
    ValidationResult :=
  { valid := raw.valid
    errors := formatErrors raw.errors
    stats := generateStats doc
    warnings := generateWarnings now jsDate doc }

/-- Whether a property is present on the document (Ajv's `required`
check counts a key as present whatever its value). -/
def hasKey (doc : Json) (k : String) : Bool := (getField doc k).isSome

/-- The error object Ajv v8 produces for one missing required property
of the top-level object: `instancePath` is the empty string (the root
instance), `schemaPath` is `#/required`, and `params.missingProperty`
names the property. -/
def ajvRequiredError (doc : Json) (prop : String) : ErrorObject :=
  { instancePath := ""
    schemaPath := "#/required"
    keyword := "required"
    params := { missingProperty := some prop }
    message := some ("must have required property \x27" ++ prop ++ "\x27")
    data := some doc }

/-- With `allErrors: true`, Ajv reports one `required` error per
missing property, in the order the schema lists them. -/
def ajvRequiredErrors (required : List String) (doc : Json) : List ErrorObject :=
  required.filterMap (fun r => if hasKey doc r then none else some (ajvRequiredError doc r))

/-- The required properties of the CLIP schema's top-level object
(mirrored by the suggestion table of `getRequiredFieldSuggestion`). -/
def clipRequiredFields : List String :=
  ["@context", "type", "id", "name", "description", "lastUpdated"]

/-- schema-manager.ts, `SchemaInfo.source`: the provenance of a schema
record. -/
inductive SchemaSource where
  | remote
  | cache
  | localSource
deriving Repr, DecidableEq

/-- schema-manager.ts, `SchemaInfo`; `lastFetched` (a JS `Date`) is
modelled as milliseconds since the epoch. -/
structure SchemaInfo where
  schema : Json
  version : String
  lastFetched : Int
  source : SchemaSource

/-- schema-manager.ts, `CachedSchema`: the metadata file's JSON shape
(`lastFetched` is stored as an ISO-8601 string). -/
structure CachedSchema where
  schema : Json
  version : String
  lastFetched : String
  url : String

/-- The cache directory holds up to two files: the schema file
(`clip.schema.json`) and the metadata file (`schema-metadata.json`);
`none` models an absent file. -/
structure StoreState where
  schemaFile : Option Json
  metaFile : Option CachedSchema

/-- Stand-in for `Date.prototype.toISOString`; the claims depend only
on it being a function of the timestamp. -/
def dateToISOString (ms : Int) : String := toString ms

/-- Stand-in for `new Date(s).getTime()` on a stored timestamp string. -/
def parseDateString (s : String) : Int := s.toInt?.getD 0

def noCachedSchemaMsg : String := "No cached schema found"

def localSchemaErrorMsg : String :=
  "Local schema path not provided or file does not exist"

def allSourcesMsg : String :=
  "Unable to load CLIP schema from any source (remote, cache, or local)"

/-- `SchemaManager.getCachedSchema` (schema-manager.ts lines 106-123):
both the schema file and the metadata file must exist, otherwise the
read fails; the version comes from the metadata. -/
def getCachedSchema (st : StoreState) : Except String SchemaInfo :=
  match st.schemaFile, st.metaFile with
  | some schema, some meta =>
    Except.ok { schema := schema, version := meta.version
                lastFetched := parseDateString meta.lastFetched
                source := SchemaSource.cache }
  | _, _ => Except.error noCachedSchemaMsg

/-- `SchemaManager.cacheSchema` (schema-manager.ts lines 191-206) run
to completion: both files written (the previous state is overwritten). -/
def cacheSchema (_st : StoreState) (schema : Json) (version : String) (lastFetched : Int)
    (url : String) : StoreState :=
  { schemaFile := some schema
    metaFile := some { schema := schema, version := version
                       lastFetched := dateToISOString lastFetched, url := url } }

/-- The store states reachable if the process crashes during
`SchemaManager.cacheSchema`.  The source issues the two `fs.writeJson`
calls under `Promise.all`, so they run concurrently and either may
complete first: a crash can leave the prior state, only the schema
file written, only the metadata file written, or both written. -/
def cacheSchemaCrashStates (st : StoreState) (schema : Json) (version : String)
    (lastFetched : Int) (url : String) : List StoreState :=
  let meta : CachedSchema :=
    { schema := schema, version := version
      lastFetched := dateToISOString lastFetched, url := url }
  [ st,
    { st with schemaFile := some schema },
    { st with metaFile := some meta },
    { schemaFile := some schema, metaFile := some meta } ]

/-- `SchemaManager.getLocalSchema` (schema-manager.ts lines 128-142):
fails unless a local path was configured and the file exists
(`localFile` is the filesystem oracle at that path); on success the
record carries `source: 'local'` and epoch 0 as `lastFetched`.
`ver` abstracts `extractSchemaVersion`. -/
def getLocalSchema (localSchemaPath : Option String) (localFile : Option Json)
    (ver : Json → String) : Except String SchemaInfo :=
  match localSchemaPath, localFile with
  | some _, some schema =>
    Except.ok { schema := schema, version := ver schema
                lastFetched := 0, source := SchemaSource.localSource }
  | _, _ => Except.error localSchemaErrorMsg

/-- `SchemaManager.getSchema` (schema-manager.ts lines 45-63): try the
remote fetch (abstracted as the `remoteOut` outcome; on success
`fetchLatestSchema` returns a record tagged `source: 'remote'`); on any
failure fall through to the cache read; on cache failure call
`getLocalSchema` only if a local path was configured — note that a
failure of `getLocalSchema` itself propagates to the caller — and only
when no local path was configured throw the all-sources-exhausted
error. -/
def getSchema (remoteOut : Except String SchemaInfo) (st : StoreState)
    (localSchemaPath : Option String) (localFile : Option Json)
    (ver : Json → String) : Except String SchemaInfo :=
  match remoteOut with
  | Except.ok s => Except.ok s
  | Except.error _ =>
    match getCachedSchema st with
    | Except.ok s => Except.ok s
    | Except.error _ =>
      match localSchemaPath with
      | some _ => getLocalSchema localSchemaPath localFile ver
      | none => Except.error allSourcesMsg

/-- The store with neither cache file present. -/
def emptyStore : StoreState := { schemaFile := none, metaFile := none }

/-- Path normalization as the specification describes it: one leading
slash stripped, every remaining slash turned into a dot, array indices
left as they stand, and the empty path replaced by `"root"`. -/
def specNormalizePath (p : String) : String :=
  let cs := slashToDot (stripLeadingSlash p.data)
  if cs = [] then "root" else String.mk cs

/-- A concrete document carrying every required CLIP field except
`name`, and nothing that violates any other schema keyword. -/
def docMissingName : Json :=
  Json.obj [("@context", Json.str "https://clipprotocol.org/v1"),
            ("type", Json.str "Venue"),
            ("id", Json.str "clip:us:ny:gym:x"),
            ("description", Json.str "A test gym"),
            ("lastUpdated", Json.str "2023-01-01T00:00:00Z")]

/-- The Ajv outcome for `docMissingName`: invalid, with exactly the
`required` errors of the CLIP schema. -/
def rawMissingName : AjvOutcome :=
  { valid := false, errors := ajvRequiredErrors clipRequiredFields docMissingName }

/-- A document whose `description` is the empty string: a string
shorter than 10 characters, but falsy in JavaScript. -/
def docEmptyDescription : Json := Json.obj [("description", Json.str "")]

/-- The metadata record written by a cache write of the empty schema. -/
def crashMeta : CachedSchema :=
  { schema := Json.obj [], version := "1", lastFetched := dateToISOString 0
    url := "https://example.com/clip.schema.json" }

/-- A store in which only the metadata file exists. -/
def metaOnlyStore : StoreState := { schemaFile := none, metaFile := some crashMeta }

theorem replaceArrIdx_id_aux (n : Nat) :
    ∀ cs : List Char, cs.length ≤ n → replaceArrIdx cs = cs := by
  induction n with
  | zero =>
    intro cs h
    have hz : cs = [] := List.eq_nil_of_length_eq_zero (Nat.le_zero.mp h)
    subst hz
    simp [replaceArrIdx]
  | succ n ih =>
    intro cs h
    match cs with
    | [] => simp [replaceArrIdx]
    | c :: rest =>
      simp only [List.length_cons] at h
      rw [replaceArrIdx.eq_def]
      by_cases hc : c = '['
      · simp only [if_pos hc]
        split
        · rename_i rest' hdw
          by_cases htw : rest.takeWhile Char.isDigit = []
          · rw [if_pos htw, ih rest (by omega)]
          · rw [if_neg htw]
            have hsplit := List.takeWhile_append_dropWhile (p := Char.isDigit) (l := rest)
            rw [hdw] at hsplit
            have hs := List.Sublist.length_le (List.dropWhile_sublist (l := rest) (p := Char.isDigit))
            rw [hdw] at hs
            simp only [List.length_cons] at hs
            rw [ih rest' (by omega), hc]
            exact congrArg (List.cons '[') hsplit
        · rw [ih rest (by omega)]
      · simp only [if_neg hc]
        rw [ih rest (by omega)]

/-- The `[n] -> [n]` regex replacement of `cleanFieldPath` rewrites
every match to itself, so the scan is the identity. -/
theorem replaceArrIdx_id (cs : List Char) : replaceArrIdx cs = cs :=
  replaceArrIdx_id_aux cs.length cs (Nat.le_refl _)

/-- C5: for every raw validator error path, `cleanFieldPath` normalizes
it exactly as the specification says: a leading slash is stripped,
every remaining slash becomes a dot, array indices written `[n]` are
preserved unchanged (the `[$1]` replacement is the identity, by
`replaceArrIdx_id`), and an empty path becomes `"root"`. -/
theorem C5_field_path_normalization (p : String) :
    cleanFieldPath p = specNormalizePath p := by
  unfold cleanFieldPath specNormalizePath
  rw [replaceArrIdx_id]

/-- The completeness accumulation of `generateStats` on object-like
input is the weighted sum of the five optional-section tests over the
40-point baseline. -/
theorem generateStats_completeness (doc : Json) (h : jsObjectLike doc = true) :
    (generateStats doc).completeness =
      40 + (if locationPresent doc then 15 else 0)
         + (if featuresNonEmpty doc then 15 else 0)
         + (if actionsNonEmpty doc then 10 else 0)
         + (if personaPresent doc then 10 else 0)
         + (if servicesNonEmpty doc then 10 else 0) := by
  simp [generateStats, h]

theorem ite_weight_le (c : Prop) [Decidable c] (w : Nat) : (if c then w else 0) ≤ w := by
  split <;> omega

/-- The completeness weights sum to exactly 100, so the score never
exceeds 100. -/
theorem generateStats_completeness_le (doc : Json) (h : jsObjectLike doc = true) :
    (generateStats doc).completeness ≤ 100 := by
  rw [generateStats_completeness doc h]
  have h1 := ite_weight_le (locationPresent doc = true) 15
  have h2 := ite_weight_le (featuresNonEmpty doc = true) 15
  have h3 := ite_weight_le (actionsNonEmpty doc = true) 10
  have h4 := ite_weight_le (personaPresent doc = true) 10
  have h5 := ite_weight_le (servicesNonEmpty doc = true) 10
  omega

/-- C2: on every non-null JS-object input (which, by `typeof`,
includes arrays) the completeness score is 40 plus 15 for a truthy
`location`, 15 for a non-empty `features`, 10 for a non-empty
`actions`, 10 for a truthy `persona` and 10 for a non-empty
`services`, and never exceeds 100; the empty object gets exactly the
40-point baseline; every other input yields the zero-valued statistics
record with type `"unknown"` and completeness 0. -/
theorem C2_completeness_score :
    (∀ doc : Json, jsObjectLike doc = true →
        (generateStats doc).completeness =
          40 + (if locationPresent doc then 15 else 0)
             + (if featuresNonEmpty doc then 15 else 0)
             + (if actionsNonEmpty doc then 10 else 0)
             + (if personaPresent doc then 10 else 0)
             + (if servicesNonEmpty doc then 10 else 0)
        ∧ (generateStats doc).completeness ≤ 100)
    ∧ (generateStats (Json.obj [])).completeness = 40
    ∧ (∀ doc : Json, jsObjectLike doc = false →
        generateStats doc = zeroStats
        ∧ zeroStats.type = "unknown" ∧ zeroStats.completeness = 0) := by
  refine ⟨fun doc h => ⟨generateStats_completeness doc h, generateStats_completeness_le doc h⟩,
          rfl, fun doc h => ⟨?_, rfl, rfl⟩⟩
  simp [generateStats, h]

/-- C2 witness: the formula and bound at a document with only a
`location`, and the zero record at a string input. -/
theorem C2_witness :
    ((generateStats (Json.obj [("location", Json.obj [])])).completeness =
        40 + (if locationPresent (Json.obj [("location", Json.obj [])]) then 15 else 0)
           + (if featuresNonEmpty (Json.obj [("location", Json.obj [])]) then 15 else 0)
           + (if actionsNonEmpty (Json.obj [("location", Json.obj [])]) then 10 else 0)
           + (if personaPresent (Json.obj [("location", Json.obj [])]) then 10 else 0)
           + (if servicesNonEmpty (Json.obj [("location", Json.obj [])]) then 10 else 0)
      ∧ (generateStats (Json.obj [("location", Json.obj [])])).completeness ≤ 100)
    ∧ generateStats (Json.str "not an object") = zeroStats := by
  refine ⟨C2_completeness_score.1 (Json.obj [("location", Json.obj [])]) rfl,
          (C2_completeness_score.2.2 (Json.str "not an object") rfl).1⟩

/-- Prepending a binding for a different key does not change a
property read. -/
theorem getField_cons_ne (k k' : String) (v : Json) (fs : List (String × Json)) (h : k' ≠ k) :
    getField (Json.obj ((k', v) :: fs)) k = getField (Json.obj fs) k := by
  simp [getField, assocLookup, h]

/-- C6: adding a non-empty `features` array to an object document that
had no `features` entry (or an empty one), holding every other field
constant, raises the completeness score by exactly 15, and the raised
score still never exceeds 100. -/
theorem C6_features_adds_fifteen (fs : List (String × Json)) (vs : List Json)
    (hbefore : getField (Json.obj fs) "features" = none
      ∨ getField (Json.obj fs) "features" = some (Json.arr []))
    (hvs : vs ≠ []) :
    (generateStats (Json.obj (("features", Json.arr vs) :: fs))).completeness
      = (generateStats (Json.obj fs)).completeness + 15
    ∧ (generateStats (Json.obj (("features", Json.arr vs) :: fs))).completeness ≤ 100 := by
  have hd' : jsObjectLike (Json.obj (("features", Json.arr vs) :: fs)) = true := rfl
  have hd : jsObjectLike (Json.obj fs) = true := rfl
  constructor
  · rw [generateStats_completeness _ hd', generateStats_completeness _ hd]
    have hfeat : getField (Json.obj (("features", Json.arr vs) :: fs)) "features"
        = some (Json.arr vs) := by
      simp [getField, assocLookup]
    have hnew : featuresNonEmpty (Json.obj (("features", Json.arr vs) :: fs)) = true := by
      rw [featuresNonEmpty, hfeat]
      simp [truthy, truthyV, jsLenGtZero, lenNum]
      exact List.length_pos.mpr hvs
    have hold : featuresNonEmpty (Json.obj fs) = false := by
      rcases hbefore with h | h <;> rw [featuresNonEmpty, h] <;>
        simp [truthy, truthyV, jsLenGtZero, lenNum]
    have hloc : locationPresent (Json.obj (("features", Json.arr vs) :: fs))
        = locationPresent (Json.obj fs) := by
      unfold locationPresent
      rw [getField_cons_ne _ _ _ _ (by decide)]
    have hact : actionsNonEmpty (Json.obj (("features", Json.arr vs) :: fs))
        = actionsNonEmpty (Json.obj fs) := by
      unfold actionsNonEmpty
      rw [getField_cons_ne _ _ _ _ (by decide)]
    have hpers : personaPresent (Json.obj (("features", Json.arr vs) :: fs))
        = personaPresent (Json.obj fs) := by
      unfold personaPresent
      rw [getField_cons_ne _ _ _ _ (by decide)]
    have hserv : servicesNonEmpty (Json.obj (("features", Json.arr vs) :: fs))
        = servicesNonEmpty (Json.obj fs) := by
      unfold servicesNonEmpty
      rw [getField_cons_ne _ _ _ _ (by decide)]
    rw [hnew, hold, hloc, hact, hpers, hserv]
    simp
    omega
  · exact generateStats_completeness_le _ hd'

/-- C6 witness: adding one feature to the empty object moves the score
from 40 to 55. -/
theorem C6_witness :
    (generateStats (Json.obj [("features", Json.arr [Json.str "treadmill"])])).completeness
      = (generateStats (Json.obj [])).completeness + 15
    ∧ (generateStats (Json.obj [("features", Json.arr [Json.str "treadmill"])])).completeness
        ≤ 100 :=
  C6_features_adds_fifteen [] [Json.str "treadmill"] (Or.inl rfl) (List.cons_ne_nil _ _)

/-- Every diagnostic built by the formatting map carries severity
`error` (clip-validator.ts line 155). -/
theorem formatOneError_severity (e : ErrorObject) :
    (formatOneError e).severity = Severity.error := rfl

/-- C10: every diagnostic in a `validate` result has severity `error`;
the warning severity admitted by the diagnostic type is never emitted
(advisory findings travel in the separate string list). -/
theorem C10_diag_severity (raw : AjvOutcome) (now : Int) (jsDate : Json → Option Int)
    (doc : Json) :
    ∀ d ∈ (validate raw now jsDate doc).errors, d.severity = Severity.error := by
  intro d hd
  simp only [validate, formatErrors, List.mem_map] at hd
  obtain ⟨e, _, he⟩ := hd
  rw [← he]
  exact formatOneError_severity e

/-- C10 witness: the severity of the one diagnostic of a concrete
failing run. -/
theorem C10_witness :
    (formatOneError (ajvRequiredError Json.null "name")).severity = Severity.error :=
  C10_diag_severity { valid := false, errors := [ajvRequiredError Json.null "name"] }
    0 (fun _ => none) Json.null (formatOneError (ajvRequiredError Json.null "name"))
    (by simp [validate, formatErrors])

/-- C4: assuming Ajv's contract that the boolean it returns is true
exactly when its error list is empty, the result of `validate` is
valid iff its diagnostics list contains no severity-`error` entry. -/
theorem C4_valid_iff_no_error (raw : AjvOutcome) (now : Int) (jsDate : Json → Option Int)
    (doc : Json) (hajv : raw.valid = true ↔ raw.errors = []) :
    (validate raw now jsDate doc).valid = true
      ↔ ¬ ∃ d ∈ (validate raw now jsDate doc).errors, d.severity = Severity.error := by
  simp only [validate]
  constructor
  · intro hv
    rw [hajv.mp hv]
    simp [formatErrors]
  · intro hno
    apply hajv.mpr
    match herr : raw.errors with
    | [] => rfl
    | e :: rest =>
      exfalso
      exact hno ⟨formatOneError e, by simp [formatErrors, herr], formatOneError_severity e⟩

/-- C4 witness: the equivalence at a concrete invalid outcome. -/
theorem C4_witness :
    ((validate { valid := false, errors := [ajvRequiredError Json.null "name"] } 0
        (fun _ => none) Json.null).valid = true
      ↔ ¬ ∃ d ∈ (validate { valid := false, errors := [ajvRequiredError Json.null "name"] } 0
        (fun _ => none) Json.null).errors, d.severity = Severity.error) :=
  C4_valid_iff_no_error { valid := false, errors := [ajvRequiredError Json.null "name"] } 0
    (fun _ => none) Json.null (by simp)

/-- `cleanFieldPath` with the identity scan rewritten away, so the
remaining computation reduces definitionally. -/
theorem cleanFieldPath_eval (p : String) :
    cleanFieldPath p =
      (if slashToDot (stripLeadingSlash p.data) = [] then "root"
       else String.mk (slashToDot (stripLeadingSlash p.data))) := by
  unfold cleanFieldPath
  rw [replaceArrIdx_id]

/-- The diagnostic produced for one missing top-level required
property: since Ajv's `instancePath` is empty at the root, the field
comes from the schema path `#/required` and normalizes to
`#.required`. -/
theorem formatOneError_required (doc : Json) (prop : String) :
    formatOneError (ajvRequiredError doc prop)
      = { field := "#.required"
          message := "Missing required field: " ++ prop
          value := some doc
          suggestion := some (getRequiredFieldSuggestion prop)
          severity := Severity.error } := by
  unfold formatOneError
  simp only [ajvRequiredError, rawFieldPath, cleanFieldPath_eval]
  rfl

/-- The diagnostics of the concrete run on `docMissingName`. -/
theorem validate_errors_missingName :
    (validate rawMissingName 0 (fun _ => none) docMissingName).errors
      = [{ field := "#.required"
           message := "Missing required field: name"
           value := some docMissingName
           suggestion := some "Add a human-readable name for this entity"
           severity := Severity.error }] := by
  show formatErrors rawMissingName.errors = _
  have hreq : rawMissingName.errors = [ajvRequiredError docMissingName "name"] := by
    simp [rawMissingName, ajvRequiredErrors, clipRequiredFields, hasKey, docMissingName,
      getField, assocLookup]
  rw [hreq]
  show [formatOneError (ajvRequiredError docMissingName "name")] = _
  rw [formatOneError_required]
  rfl

/-- C1 counterexample: validating a concrete document that carries
every required field except `name` produces exactly one diagnostic,
but its `field` is `"#.required"` — not `"name"` as the claim states —
because Ajv reports root-level `required` failures with an empty
instance path and the formatter then falls back to the schema path. -/
theorem C1_counterexample :
    (validate rawMissingName 0 (fun _ => none) docMissingName).errors.length = 1
    ∧ (∀ d ∈ (validate rawMissingName 0 (fun _ => none) docMissingName).errors,
        d.field ≠ "name" ∧ d.field = "#.required") := by
  rw [validate_errors_missingName]
  refine ⟨rfl, ?_⟩
  intro d hd
  rw [List.mem_singleton] at hd
  subst hd
  exact ⟨by decide, rfl⟩

/-- C1 (amended): for every object document that has all required CLIP
fields except `name`, and whose validator run reports exactly the
required-keyword errors, the diagnostics list has exactly one entry;
its field is `"#.required"` (the normalized schema path, since the
instance path of a root-level required error is empty) and it carries
the fixed non-empty `name` suggestion. -/
theorem C1_required_name_diagnostic (fs : List (String × Json))
    (hctx : hasKey (Json.obj fs) "@context" = true)
    (hty : hasKey (Json.obj fs) "type" = true)
    (hid : hasKey (Json.obj fs) "id" = true)
    (hname : hasKey (Json.obj fs) "name" = false)
    (hdesc : hasKey (Json.obj fs) "description" = true)
    (hlu : hasKey (Json.obj fs) "lastUpdated" = true)
    (raw : AjvOutcome) (hraw : raw.errors = ajvRequiredErrors clipRequiredFields (Json.obj fs))
    (now : Int) (jsDate : Json → Option Int) :
    (validate raw now jsDate (Json.obj fs)).errors
      = [{ field := "#.required"
           message := "Missing required field: name"
           value := some (Json.obj fs)
           suggestion := some "Add a human-readable name for this entity"
           severity := Severity.error }]
    ∧ "Add a human-readable name for this entity" ≠ "" := by
  have hreq : ajvRequiredErrors clipRequiredFields (Json.obj fs)
      = [ajvRequiredError (Json.obj fs) "name"] := by
    simp [ajvRequiredErrors, clipRequiredFields, hctx, hty, hid, hname, hdesc, hlu]
  refine ⟨?_, by decide⟩
  show formatErrors raw.errors = _
  rw [hraw, hreq]
  show [formatOneError (ajvRequiredError (Json.obj fs) "name")] = _
  rw [formatOneError_required]
  rfl

/-- C1 witness: the amended statement at the concrete document. -/
theorem C1_witness :
    (validate rawMissingName 0 (fun _ => none) docMissingName).errors
      = [{ field := "#.required"
           message := "Missing required field: name"
           value := some docMissingName
           suggestion := some "Add a human-readable name for this entity"
           severity := Severity.error }]
    ∧ "Add a human-readable name for this entity" ≠ "" :=
  C1_required_name_diagnostic
    [("@context", Json.str "https://clipprotocol.org/v1"),
     ("type", Json.str "Venue"),
     ("id", Json.str "clip:us:ny:gym:x"),
     ("description", Json.str "A test gym"),
     ("lastUpdated", Json.str "2023-01-01T00:00:00Z")]
    rfl rfl rfl rfl rfl rfl rawMissingName rfl 0 (fun _ => none)

/-- C9 counterexample: a document whose `description` is the empty
string — a string shorter than 10 characters — gets no "too short"
warning, because the source guards the check with JS truthiness and
the empty string is falsy. -/
theorem C9_counterexample :
    getField docEmptyDescription "description" = some (Json.str "")
    ∧ ("" : String).length < 10
    ∧ shortDescriptionWarning ∉ generateWarnings 0 (fun _ => none) docEmptyDescription
    ∧ shortDescriptionWarning
        ∉ (validate { valid := true, errors := [] } 0
            (fun _ => none) docEmptyDescription).warnings := by
  refine ⟨rfl, by decide, ?_, ?_⟩ <;>
    · show shortDescriptionWarning ∉ generateWarnings 0 (fun _ => none) docEmptyDescription
      decide

/-- C9 (amended): for every object document whose `description` is a
non-empty string shorter than 10 characters, the warnings list
contains the "too short" warning; and warnings never affect the valid
flag, which is exactly the raw validator boolean whatever the
document's warning-relevant content. -/
theorem C9_short_description_warning (now : Int) (jsDate : Json → Option Int)
    (fs : List (String × Json)) (s : String)
    (hdesc : assocLookup "description" fs = some (Json.str s))
    (hne : s ≠ "") (hlen : s.length < 10) :
    shortDescriptionWarning ∈ generateWarnings now jsDate (Json.obj fs)
    ∧ ∀ (raw : AjvOutcome) (doc : Json),
        (validate raw now jsDate doc).valid = raw.valid := by
  constructor
  · have hfield : getField (Json.obj fs) "description" = some (Json.str s) := hdesc
    have hcond : (truthy (getField (Json.obj fs) "description")
        && jsLenLt (getField (Json.obj fs) "description") 10) = true := by
      rw [hfield]
      simp [truthy, truthyV, jsLenLt, lenNum, hne]
      omega
    unfold generateWarnings
    simp only [jsObjectLike, if_true, hcond]
    simp
  · intro raw doc
    rfl

/-- C9 witness: the warning fires for the five-character description
`"short"`. -/
theorem C9_witness :
    shortDescriptionWarning
      ∈ generateWarnings 0 (fun _ => none) (Json.obj [("description", Json.str "short")])
    ∧ ∀ (raw : AjvOutcome) (doc : Json),
        (validate raw 0 (fun _ => none) doc).valid = raw.valid :=
  C9_short_description_warning 0 (fun _ => none) [("description", Json.str "short")] "short"
    rfl (by decide) (by decide)

/-- C3 counterexample: with the remote fetch failing, an empty cache,
and a local schema path configured whose file does not exist, all
three sources have failed, yet `getSchema` surfaces the local-schema
error of `getLocalSchema` — not the all-sources-exhausted error the
claim requires. -/
theorem C3_counterexample :
    getSchema (Except.error "Network error") emptyStore
        (some "/schemas/clip.schema.json") none (fun _ => "1")
      = Except.error localSchemaErrorMsg
    ∧ localSchemaErrorMsg ≠ allSourcesMsg :=
  ⟨rfl, by decide⟩

/-- C3 (amended): the fallback chain in order — a successful remote
fetch is returned as-is (tagged remote by `fetchLatestSchema`); on
remote failure a readable cache is returned with origin cache; on
remote and cache failure with a configured and readable local file the
record has origin local; when no local path is configured the call
fails with the all-sources-exhausted error; but when a configured
local read fails, that local error propagates instead. -/
theorem C3_fallback_chain :
    (∀ (s : SchemaInfo) (st : StoreState) (lp : Option String) (lf : Option Json)
        (ver : Json → String), s.source = SchemaSource.remote →
      getSchema (Except.ok s) st lp lf ver = Except.ok s)
    ∧ (∀ (err : String) (st : StoreState) (lp : Option String) (lf : Option Json)
        (ver : Json → String) (c : SchemaInfo), getCachedSchema st = Except.ok c →
      getSchema (Except.error err) st lp lf ver = Except.ok c
        ∧ c.source = SchemaSource.cache)
    ∧ (∀ (err m : String) (st : StoreState) (p : String) (sch : Json) (ver : Json → String),
        getCachedSchema st = Except.error m →
      getSchema (Except.error err) st (some p) (some sch) ver
        = Except.ok { schema := sch, version := ver sch, lastFetched := 0
                      source := SchemaSource.localSource })
    ∧ (∀ (err m : String) (st : StoreState) (ver : Json → String),
        getCachedSchema st = Except.error m →
      getSchema (Except.error err) st none none ver = Except.error allSourcesMsg)
    ∧ (∀ (err m : String) (st : StoreState) (p : String) (ver : Json → String),
        getCachedSchema st = Except.error m →
      getSchema (Except.error err) st (some p) none ver
        = Except.error localSchemaErrorMsg) := by
  refine ⟨fun s st lp lf ver _ => rfl, ?_, ?_, ?_, ?_⟩
  · intro err st lp lf ver c hc
    constructor
    · unfold getSchema
      rw [hc]
    · unfold getCachedSchema at hc
      revert hc
      match st.schemaFile, st.metaFile with
      | some schema, some meta => intro hc; cases hc; rfl
      | some _, none => intro hc; cases hc
      | none, some _ => intro hc; cases hc
      | none, none => intro hc; cases hc
  · intro err m st p sch ver hc
    unfold getSchema
    rw [hc]
    rfl
  · intro err m st ver hc
    unfold getSchema
    rw [hc]
  · intro err m st p ver hc
    unfold getSchema
    rw [hc]
    rfl

/-- C3 witness: the four reachable outcomes of the amended chain at
concrete inputs. -/
theorem C3_witness :
    getSchema (Except.ok { schema := Json.obj [], version := "1", lastFetched := 5
                           source := SchemaSource.remote })
        emptyStore none none (fun _ => "1")
      = Except.ok { schema := Json.obj [], version := "1", lastFetched := 5
                    source := SchemaSource.remote }
    ∧ getSchema (Except.error "Network error")
        (cacheSchema emptyStore (Json.obj []) "1" 5 "https://example.com") none none
        (fun _ => "1")
      = Except.ok { schema := Json.obj [], version := "1"
                    lastFetched := parseDateString (dateToISOString 5)
                    source := SchemaSource.cache }
    ∧ getSchema (Except.error "Network error") emptyStore (some "/tmp/clip.json")
        (some (Json.obj [])) (fun _ => "1")
      = Except.ok { schema := Json.obj [], version := "1", lastFetched := 0
                    source := SchemaSource.localSource }
    ∧ getSchema (Except.error "Network error") emptyStore none none (fun _ => "1")
      = Except.error allSourcesMsg := by
  refine ⟨C3_fallback_chain.1 _ emptyStore none none _ rfl,
          (C3_fallback_chain.2.1 "Network error"
            (cacheSchema emptyStore (Json.obj []) "1" 5 "https://example.com") none none
            (fun _ => "1")
            { schema := Json.obj [], version := "1"
              lastFetched := parseDateString (dateToISOString 5)
              source := SchemaSource.cache } rfl).1,
          C3_fallback_chain.2.2.1 "Network error" noCachedSchemaMsg emptyStore _ _ _ rfl,
          C3_fallback_chain.2.2.2.1 "Network error" noCachedSchemaMsg emptyStore _ rfl⟩

/-- C7 counterexample: because `cacheSchema` issues its two file writes
concurrently under `Promise.all`, the crash state in which only the
metadata file exists is reachable — contradicting the claimed
schema-first write order — although reading that state still fails
with the not-found error. -/
theorem C7_counterexample :
    metaOnlyStore ∈ cacheSchemaCrashStates emptyStore (Json.obj []) "1" 0
        "https://example.com/clip.schema.json"
    ∧ metaOnlyStore.schemaFile = none
    ∧ getCachedSchema metaOnlyStore = Except.error noCachedSchemaMsg := by
  refine ⟨?_, rfl, rfl⟩
  show metaOnlyStore ∈ [_, _, _, _]
  exact List.mem_cons_of_mem _ (List.mem_cons_of_mem _ (List.mem_cons_self _ _))

/-- C7 (amended): the two cache writes are issued concurrently, so
either file may exist alone after a crash; still, from an empty store
every crash state other than the fully-written one makes the next read
fail with the not-found error (both files are required), so no partial
write is silently accepted. -/
theorem C7_crash_read_safe (schema : Json) (version : String) (t : Int) (url : String) :
    ∀ st ∈ cacheSchemaCrashStates emptyStore schema version t url,
      getCachedSchema st = Except.error noCachedSchemaMsg
      ∨ st = cacheSchema emptyStore schema version t url := by
  intro st hst
  simp only [cacheSchemaCrashStates, List.mem_cons, List.not_mem_nil, or_false] at hst
  rcases hst with h | h | h | h <;> subst h
  · left; rfl
  · left; rfl
  · left; rfl
  · right; rfl

/-- C7 witness: the amended statement at the state where neither write
completed. -/
theorem C7_witness :
    getCachedSchema emptyStore = Except.error noCachedSchemaMsg
    ∨ emptyStore = cacheSchema emptyStore (Json.obj []) "1" 0 "https://example.com" :=
  C7_crash_read_safe (Json.obj []) "1" 0 "https://example.com" emptyStore
    (List.mem_cons_self _ _)

/-- C8: writing a schema with a version to the store and reading it
back yields a record whose schema and version are exactly the ones
written. -/
theorem C8_round_trip (st : StoreState) (schema : Json) (version : String) (t : Int)
    (url : String) :
    ∃ r : SchemaInfo,
      getCachedSchema (cacheSchema st schema version t url) = Except.ok r
      ∧ r.schema = schema ∧ r.version = version :=
  ⟨{ schema := schema, version := version
     lastFetched := parseDateString (dateToISOString t), source := SchemaSource.cache },
   rfl, rfl, rfl⟩

end ClipToolkit
